import Mathlib

/-!
Verification of the AISearch relevance-ranking and feedback-learning engine.

Shallow embedding of `src/extension/content.js` and `src/extension/background.js`.
JavaScript strings are modelled as `List Char` (`Str`); JavaScript numbers that carry
scores or thresholds are modelled as `ℚ` (only order comparisons and linear
combinations of them occur in the engine); timestamps are `ℤ` milliseconds.
DOM access, message transport and `chrome.storage` mechanics are outside the model:
functions receive the data those collaborators would deliver as explicit arguments.
-/

namespace AISearch

/-- JavaScript strings are modelled as lists of characters. -/
abbrev Str := List Char

/-- Embed a Lean string literal as a modelled JavaScript string. -/
def str (s : String) : Str := s.data

/-- JavaScript `toLowerCase()` (the engine only ever feeds it ASCII text). -/
def lowerStr (s : Str) : Str := s.map Char.toLower

/-- Is `c` one of `[a-z0-9]`?  Mirrors the character class used by the
regexes in `tokenize`, `normalizeTitle` and `collectEntries` of content.js
(those regexes run on already-lowercased text). -/
def isAlnumChar (c : Char) : Bool := ('a' ≤ c && c ≤ 'z') || ('0' ≤ c && c ≤ '9')

/-- Split at every character satisfying `p`, keeping (possibly empty) pieces.
JavaScript `split(/[sep]+/)` collapses separator runs, so it differs from this
only by not producing interior empty pieces; every caller below filters pieces
by length or emptiness, after which the two agree. -/
def splitOnPred (p : Char → Bool) : Str → List Str
  | [] => [[]]
  | c :: cs =>
    let rest := splitOnPred p cs
    if p c then [] :: rest
    else
      match rest with
      | [] => [[c]]
      | r :: rs => (c :: r) :: rs

/-- Does `s` start with `pre`? -/
def strStartsWith : Str → Str → Bool
  | _, [] => true
  | [], _ :: _ => false
  | c :: cs, d :: ds => c = d && strStartsWith cs ds

/-- JavaScript `s.includes(sub)`: does `sub` occur contiguously in `s`? -/
def strContains (s sub : Str) : Bool :=
  match s with
  | [] => sub.isEmpty
  | _ :: rest => strStartsWith s sub || strContains rest sub

/-- content.js `tokenize` (lines 748-756): lowercase, split on runs of
non-`[a-z0-9]`, keep tokens of length `> 2`. -/
def tokenize (text : Str) : List Str :=
  if text = [] then []
  else (splitOnPred (fun c => !isAlnumChar c) (lowerStr text)).filter
    (fun token => token.length > 2)

/-- content.js / background.js `normalizeTitle` (content.js lines 722-724):
lowercase, replace each run of non-alphanumerics by one space, trim.
Joining the nonempty alphanumeric runs with single spaces is exactly that. -/
def normalizeTitle (title : Str) : Str :=
  List.intercalate [' ']
    ((splitOnPred (fun c => !isAlnumChar c) (lowerStr title)).filter (fun t => t ≠ []))

/-- content.js `extractHashtags` (lines 713-720): split on whitespace, keep
tokens starting with `#`, strip the leading `#` run, lowercase, drop empties. -/
def extractHashtags (text : Str) : List Str :=
  if text = [] then []
  else
    ((((splitOnPred (fun c => c.isWhitespace) text).filter
        (fun token => strStartsWith token ['#'])).map
      (fun tag => lowerStr (tag.dropWhile (fun c => c = '#')))).filter
      (fun tag => tag ≠ []))

/-- JavaScript `Array.prototype.join(" ")`. -/
def joinSpace (xs : List Str) : Str := List.intercalate [' '] xs

/-- content.js `NEGATIVE_KEYWORDS` (lines 28-38).  Declared by the content
script; the check that consumes them lives in the repository backend. -/
def NEGATIVE_KEYWORDS : List Str :=
  [str "lyrics", str "official video", str "music video", str "audio",
   str "song", str "remix", str "cover", str "vevo", str "karaoke"]

/-- content.js `APPLE_BRAND_KEYWORDS` (lines 39-70). -/
def APPLE_BRAND_KEYWORDS : List Str :=
  [str "iphone", str "ipad", str "ipod", str "macbook", str "macbook pro",
   str "macbook air", str "mac mini", str "mac studio", str "mac pro",
   str "imac", str "apple watch", str "watch", str "airpods", str "vision pro",
   str "apple event", str "wwdc", str "apple silicon", str "m1", str "m2",
   str "m3", str "a17", str "a18", str "ios", str "macos", str "unboxing",
   str "review", str "stock", str "aapl", str "earnings", str "preorder"]

/-- content.js `APPLE_FRUIT_KEYWORDS` (lines 71-105). -/
def APPLE_FRUIT_KEYWORDS : List Str :=
  [str "fruit", str "orchard", str "tree", str "picking", str "harvest",
   str "recipe", str "cooking", str "baking", str "pie", str "juice",
   str "cider", str "farmer", str "garden", str "organic", str "crisp",
   str "sweet", str "nutrition", str "vitamin", str "farm", str "grow",
   str "seed", str "core", str "peel", str "slice", str "snack", str "fuji",
   str "granny smith", str "gala", str "honeycrisp", str "fruit salad",
   str "caramel apple", str "apple fruit", str "orchard care"]

/-- content.js `computeImageThresholds` result shape (lines 870-879). -/
structure Thresholds where
  min : ℚ
  strong : ℚ
  top : ℚ

/-- content.js `normalizeImageMode` (lines 881-883). -/
def normalizeImageMode (mode : Str) : Str :=
  if mode = str "balanced" ∨ mode = str "boosted" ∨ mode = str "strict" then mode
  else str "balanced"

/-- content.js `computeImageThresholds` (lines 870-879): per-mode image
thresholds; any unknown mode normalizes to "balanced" (the default branch). -/
def computeImageThresholds (mode : Str) : Thresholds :=
  if normalizeImageMode mode = str "strict" then ⟨35/100, 55/100, 75/100⟩
  else if normalizeImageMode mode = str "boosted" then ⟨18/100, 40/100, 60/100⟩
  else ⟨20/100, 45/100, 65/100⟩

/-- The slice of the content-script `config` object the ranking core reads
(content.js lines 4-14; `enableMusicFilter`, `enableIntentBoost` and
`enableTemporalBoost` are never read by the modelled functions). -/
structure Config where
  minScore : ℚ
  maxItems : ℕ
  enableReorder : Bool
  enableBrandFilter : Bool
  imageMode : Str

/-- The module-level mutable context of content.js that the Filter Chain
reads: `config`, `lastQueryTokens` and `wrongBlacklist` (lines 107-114).
`imageThresholds` is kept in sync with `config.imageMode` by `applySettings`,
so it is recomputed from the config here. -/
structure Ctx where
  config : Config
  lastQueryTokens : List Str
  wrongBlacklist : List (Str × List Str)

/-- Lookup `wrongBlacklist[queryKey]`. -/
def lookupBlacklist (bl : List (Str × List Str)) (key : Str) : Option (List Str) :=
  (bl.find? (fun p => decide (p.1 = key))).map (fun p => p.2)

/-- content.js `isBlacklisted(queryKey, title)` (lines 726-731). -/
def isBlacklisted (ctx : Ctx) (queryKey title : Str) : Bool :=
  if queryKey = [] ∨ title = [] then false
  else
    match lookupBlacklist ctx.wrongBlacklist queryKey with
    | none => false
    | some titles =>
      if titles = [] then false
      else titles.contains (normalizeTitle title)

/-- A ranked entry as delivered by the scoring backend
(`data.ranked` elements; see the Scorer contract and content.js usage).
`score` is the fused final score; `image_score` is absent when no visual
signal was computed. -/
structure Entry where
  id : Str
  title : Str
  description : Str
  score : Option ℚ
  text_score : Option ℚ
  image_score : Option ℚ
deriving DecidableEq

/-- The combined searchable text of an entry as built inside
`passesFilters` (content.js lines 682-685): lowercased title, lowercased
description, and the hashtags extracted from both, joined by spaces. -/
def combinedText (entry : Entry) : Str :=
  let title := lowerStr entry.title
  let description := lowerStr entry.description
  let hashtags := joinSpace (extractHashtags (title ++ [' '] ++ description))
  title ++ [' '] ++ description ++ [' '] ++ hashtags

/-- content.js `passesFilters` (lines 669-711), the Filter Chain:
1. min-score gate; 2. image floor; empty-token early accept;
3. apple brand/fruit disambiguation; 4. token presence with strong-image
rescue; then the blacklist check.  NOTE (verbatim from the source, line 706):
the final check is `isBlacklisted(entry.title || "", lastQueryTokens.join(" "))`,
i.e. the entry title is passed in the `queryKey` position and the joined
query tokens in the `title` position. -/
def passesFilters (ctx : Ctx) (entry : Entry) : Bool :=
  match entry.score with
  | none => false
  | some score =>
    if score < ctx.config.minScore then false
    else
      let th := computeImageThresholds ctx.config.imageMode
      let imageFloorReject : Bool :=
        match entry.image_score with
        | some i => if i < th.min then (if score < 35/100 then true else false) else false
        | none => false
      if imageFloorReject then false
      else if ctx.lastQueryTokens = [] then true
      else
        let combined := combinedText entry
        let hasFruit := APPLE_FRUIT_KEYWORDS.any (fun kw => strContains combined kw)
        let hasBrand := APPLE_BRAND_KEYWORDS.any (fun kw => strContains combined kw)
        if ctx.config.enableBrandFilter && ctx.lastQueryTokens.contains (str "apple")
            && hasBrand && !hasFruit then false
        else
          let tokenPresent := ctx.lastQueryTokens.any (fun token => strContains combined token)
          if !tokenPresent then
            match entry.image_score with
            | some i => if th.strong ≤ i then true else false
            | none => false
          else if isBlacklisted ctx entry.title (joinSpace ctx.lastQueryTokens) then false
          else true

/-- An item collected from the results page (content.js `collectEntries`,
lines 297-333): the scraped fields sent to the backend. -/
structure PayloadItem where
  id : Str
  text : Str
  title : Str
  description : Str
  thumbnail : Str
  metadata : Str
deriving DecidableEq

/-- A scoring request payload: the query plus the collected items. -/
structure Payload where
  query : Str
  items : List PayloadItem
deriving DecidableEq

/-- content.js `collectEntries` (lines 297-333), with the DOM scraping
already done (the scraped `PayloadItem`s, at most `maxItems`, are the
input): keep items with nonempty text that are not blacklisted under the
lowercased query; return `none` if the query or the result set is empty. -/
def collectEntries (ctx : Ctx) (query : Str) (scraped : List PayloadItem) : Option Payload :=
  if query.isEmpty || scraped.isEmpty then none
  else
    let queryKey := lowerStr query
    let items := ((scraped.take ctx.config.maxItems).filter
        (fun item => item.text ≠ [])).filter
      (fun item => !isBlacklisted ctx queryKey item.title)
    if items.isEmpty then none
    else some { query := query, items := items }

/-- A result node decorated for reordering (content.js lines 379-397):
the node id, its backend entry if any, the filter verdict, the score
(`entry?.score ?? -1`) and the original DOM index. -/
structure Decorated where
  id : Str
  entry : Option Entry
  passes : Bool
  score : ℚ
  index : ℕ

/-- Entry lookup used by `applySemanticRanking` (line 376): a JS `Map`
built from `(id, item)` pairs keeps the last binding per id. -/
def entryForId (ranked : List Entry) (id : Str) : Option Entry :=
  ranked.reverse.find? (fun e => decide (e.id = id))

/-- content.js `applySemanticRanking` decoration step (lines 379-397). -/
def decorate (ctx : Ctx) (ranked : List Entry) (nodeIds : List Str) : List Decorated :=
  nodeIds.enum.map (fun p =>
    match entryForId ranked p.2 with
    | some e =>
      { id := p.2, entry := some e, passes := passesFilters ctx e,
        score := e.score.getD (-1), index := p.1 }
    | none => { id := p.2, entry := none, passes := false, score := -1, index := p.1 })

/-- content.js `tierFor` score bucketing (lines 827-840): the cascade of
`if (score >= c) baseTier = k` assignments, i.e. the largest bucket whose
threshold the score clears. -/
def bucketTier (score : ℚ) : ℕ :=
  if 8/10 ≤ score then 5
  else if 5/10 ≤ score then 4
  else if 2/10 ≤ score then 3
  else if 1/100 ≤ score then 2
  else 1

/-- content.js `tierFor` (lines 809-841).  `const score = item.score || 0`
only replaces a zero score by zero, so it is `item.score` over ℚ. -/
def tierFor (ctx : Ctx) (item : Decorated) : ℕ :=
  match item.entry with
  | none => 0
  | some entry =>
    if item.passes = false then 1
    else
      let th := computeImageThresholds ctx.config.imageMode
      match entry.image_score with
      | some i =>
        if th.top ≤ i then 7
        else if th.strong ≤ i then 6
        else bucketTier item.score
      | none => bucketTier item.score

/-- The `reorderNodes` comparator (content.js lines 772-782) as a boolean
"a sorts no later than b" relation: the comparator returns
`tierFor(b) - tierFor(a)`, then `b.score - a.score`, then
`a.index - b.index`, and an array is sorted when the comparator is `≤ 0`
on every ordered pair.  (The `?? -1` fallbacks are already folded into
`Decorated.score`.) -/
def decoratedLE (ctx : Ctx) (a b : Decorated) : Bool :=
  if tierFor ctx b < tierFor ctx a then true
  else if tierFor ctx a = tierFor ctx b then
    if b.score < a.score then true
    else if a.score = b.score then decide (a.index ≤ b.index)
    else false
  else false

/-- The sorted order `reorderNodes` produces (content.js line 772):
`[...items].sort(comparator)`. -/
def sortItems (ctx : Ctx) (items : List Decorated) : List Decorated :=
  items.mergeSort (decoratedLE ctx)

/-- The order signature `reorderNodes` computes (line 784): ids of the
sorted items joined with `|`. -/
def orderSignature (ctx : Ctx) (items : List Decorated) : Str :=
  List.intercalate ['|'] ((sortItems ctx items).map (fun d => d.id))

/-- content.js `reorderNodes` (lines 758-807) as a state transition on
`lastOrderSignature`: returns the new DOM order if one is emitted (`none`
when reordering is disabled, the list is empty, or the signature is
unchanged) together with the resulting `lastOrderSignature`. -/
def reorderNodesStep (ctx : Ctx) (lastSig : Str) (items : List Decorated) :
    Option (List Decorated) × Str :=
  if ctx.config.enableReorder = false then (none, lastSig)
  else if items.isEmpty then (none, lastSig)
  else
    let sorted := sortItems ctx items
    let sig := List.intercalate ['|'] (sorted.map (fun d => d.id))
    if sig = lastSig then (none, lastSig)
    else (some sorted, sig)

/-- One full ranking pass over a backend response: decorate the current
nodes (Filter Chain + Tier Classifier inputs) and run `reorderNodes`. -/
def rankingPass (ctx : Ctx) (ranked : List Entry) (nodeIds : List Str) (lastSig : Str) :
    Option (List Decorated) × Str :=
  reorderNodesStep ctx lastSig (decorate ctx ranked nodeIds)

/-! ## Result cache (content.js lines 116-118, 272-278, 335-368) -/

/-- The payload hash of `requestAnalysis` (line 346):
`JSON.stringify({query, ids})`, which on these inputs is injective, so the
fingerprint is modelled as the pair itself. -/
abbrev Fingerprint := Str × List Str

/-- content.js line 346: the fingerprint of a request. -/
def fingerprint (p : Payload) : Fingerprint := (p.query, p.items.map (fun item => item.id))

/-- A `resultCache` entry (content.js lines 274-277): the backend response
ranked list and the insertion time. -/
structure CacheEntry where
  data : List Entry
  timestamp : ℤ

/-- content.js `CACHE_EXPIRY_MS` (line 118): 5 minutes. -/
def CACHE_EXPIRY_MS : ℤ := 5 * 60 * 1000

/-- JS `Map.prototype.set`: replace any existing binding for the key. -/
def cacheSet (cache : List (Fingerprint × CacheEntry)) (h : Fingerprint) (e : CacheEntry) :
    List (Fingerprint × CacheEntry) :=
  (h, e) :: cache.filter (fun p => !decide (p.1 = h))

/-- JS `Map.prototype.get`. -/
def cacheGet (cache : List (Fingerprint × CacheEntry)) (h : Fingerprint) : Option CacheEntry :=
  (cache.find? (fun p => decide (p.1 = h))).map (fun p => p.2)

/-- The cache consultation of `requestAnalysis` (lines 354-358): a stored
entry is served only while `now - entry.timestamp < CACHE_EXPIRY_MS`. -/
def cacheLookupFresh (cache : List (Fingerprint × CacheEntry)) (h : Fingerprint) (now : ℤ) :
    Option (List Entry) :=
  match cacheGet cache h with
  | some e => if now - e.timestamp < CACHE_EXPIRY_MS then some e.data else none
  | none => none

/-- The cache write performed by `handleRuntimeMessage` on a
`semantic-results` message (lines 272-278). -/
def storeResults (cache : List (Fingerprint × CacheEntry)) (h : Fingerprint)
    (data : List Entry) (now : ℤ) : List (Fingerprint × CacheEntry) :=
  cacheSet cache h ⟨data, now⟩

/-- What `requestAnalysis` (lines 335-368) does with a collected payload. -/
inductive AnalysisAction where
  | skip
  | useCache (data : List Entry)
  | sendBackend (hash : Fingerprint)
deriving DecidableEq

/-- content.js `requestAnalysis` (lines 335-368) as a decision function:
bail out if settings are not ready, no payload was collected, or the
fingerprint is unchanged; then serve a fresh cache entry, else message the
background worker to query the scoring backend. -/
def requestAnalysisStep (settingsReady : Bool) (payload : Option Payload)
    (lastHash : Option Fingerprint) (cache : List (Fingerprint × CacheEntry)) (now : ℤ) :
    AnalysisAction :=
  if settingsReady = false then .skip
  else
    match payload with
    | none => .skip
    | some p =>
      if some (fingerprint p) = lastHash then .skip
      else
        match cacheLookupFresh cache (fingerprint p) now with
        | some data => .useCache data
        | none => .sendBackend (fingerprint p)

/-! ## Feedback store, blacklist index and classifier trainer
(background.js lines 100-121, 156-179, 212-260) -/

/-- The `feedback` field of a stored feedback record. -/
inductive Judgment where
  | helpful
  | wrong
  | clicked
deriving DecidableEq

/-- A record of the `search_feedback` log (background.js lines 110-116).
`logSearchFeedback` stores no description. -/
structure FeedbackEntry where
  query : Str
  resultId : Str
  title : Str
  feedback : Judgment
  timestamp : ℤ
deriving DecidableEq

/-- background.js `logSearchFeedback` (lines 100-121): guard on missing
query/resultId, push, keep the last 500 entries (`slice(-500)`). -/
def logSearchFeedback (log : List FeedbackEntry) (e : FeedbackEntry) : List FeedbackEntry :=
  if e.query.isEmpty || e.resultId.isEmpty then log
  else
    let pushed := log ++ [e]
    pushed.drop (pushed.length - 500)

/-- Insert a normalized title into the per-query set of a blacklist
accumulator (JS `Set.add` on `blacklist[q]`, keeping insertion order). -/
def addToBlacklist : List (Str × List Str) → Str → Str → List (Str × List Str)
  | [], q, t => [(q, [t])]
  | (q0, ts) :: rest, q, t =>
    if q0 = q then (q0, if t ∈ ts then ts else ts ++ [t]) :: rest
    else (q0, ts) :: addToBlacklist rest q t

/-- background.js `getWrongBlacklist` (lines 156-175): group the
`judgment = wrong` entries by lowercased query, collecting the set of
normalized titles; entries with an empty title or empty lowercased query
are skipped. -/
def getWrongBlacklist (log : List FeedbackEntry) : List (Str × List Str) :=
  log.foldl
    (fun acc e =>
      if e.feedback ≠ Judgment.wrong ∨ e.title = [] then acc
      else
        let q := lowerStr e.query
        if q = [] then acc
        else addToBlacklist acc q (normalizeTitle e.title))
    []

/-- The trigger of the `chrome.storage.onChanged` listener
(background.js lines 253-260): train exactly when the stored log length is
a positive multiple of 20. -/
def trainerTriggered (newLog : List FeedbackEntry) : Bool :=
  decide (0 < newLog.length) && decide (newLog.length % 20 = 0)

/-- The entries `trainNegativeClassifier` trains on (background.js line
224): judgment helpful or wrong. -/
def qualifyingEntry (e : FeedbackEntry) : Bool :=
  decide (e.feedback = Judgment.helpful) || decide (e.feedback = Judgment.wrong)

/-- background.js `trainNegativeClassifier` (lines 212-250) up to its
network call: whether the training request is actually sent — the run is a
silent no-op when the log has fewer than 10 entries or fewer than 10
helpful/wrong entries. -/
def trainRequestSent (log : List FeedbackEntry) : Bool :=
  if log.length < 10 then false
  else if (log.filter qualifyingEntry).length < 10 then false
  else true

/-- One feedback append observed end to end: the stored log after
`logSearchFeedback` and whether a training request goes out (the storage
listener fires only when the stored value actually changed, which for a
rejected append it does not). -/
def feedbackAppendStep (log : List FeedbackEntry) (e : FeedbackEntry) :
    List FeedbackEntry × Bool :=
  if e.query.isEmpty || e.resultId.isEmpty then (log, false)
  else
    let newLog := logSearchFeedback log e
    (newLog, trainerTriggered newLog && trainRequestSent newLog)

/-! ## Background scoring request and content-script reaction
(background.js lines 21-65, content.js lines 258-295, 370-403) -/

/-- The outcome of the background worker's `fetch` of the scoring backend. -/
inductive FetchOutcome where
  | ok (data : List Entry)
  | httpError (status : ℕ) (body : Str)
  | networkError (message : Str)

/-- A message the background worker sends to the content script. -/
inductive TabMessage where
  | semanticResults (data : List Entry) (hash : Fingerprint)
  | semanticError (error : Str)
  | semanticDisabled

/-- The error text of background.js line 48:
`Backend error: ${response.status} ${text}`. -/
def backendErrorText (status : ℕ) (body : Str) : Str :=
  str "Backend error: " ++ str (toString status) ++ [' '] ++ body

/-- background.js `handleSemanticRequest` (lines 21-65): guard on a missing
query or empty item list, honor the `enabled` setting, then forward the
fetch outcome as exactly one message — results on success, a
`semantic-error` on a non-OK HTTP status or a thrown network error.  There
is no retry path. -/
def handleSemanticRequest (enabled : Bool) (payload : Option Payload) (hash : Fingerprint)
    (outcome : FetchOutcome) : Option TabMessage :=
  match payload with
  | none => none
  | some p =>
    if p.query.isEmpty || p.items.isEmpty then none
    else if enabled = false then some .semanticDisabled
    else
      match outcome with
      | .ok data => some (.semanticResults data hash)
      | .httpError status body => some (.semanticError (backendErrorText status body))
      | .networkError message => some (.semanticError message)

/-- The content-script state touched by incoming messages: which node ids
are currently highlighted, and the last emitted order signature. -/
structure ContentState where
  highlighted : List Str
  lastOrderSignature : Str

/-- content.js `clearHighlights` (lines 596-598). -/
def clearHighlights (s : ContentState) : ContentState :=
  { s with highlighted := [] }

/-- content.js `applySemanticRanking` (lines 370-403): an empty ranked list
clears the highlights; otherwise each node with a passing entry of
sufficient score is highlighted, the rest are reset, and `reorderNodes`
runs. -/
def applySemanticRanking (ctx : Ctx) (data : List Entry) (nodeIds : List Str)
    (s : ContentState) : ContentState × Option (List Decorated) :=
  if data.isEmpty then (clearHighlights s, none)
  else
    let decorated := decorate ctx data nodeIds
    let highlighted := (decorated.filter
      (fun d => d.passes && !decide (d.score < ctx.config.minScore))).map (fun d => d.id)
    let stepped := reorderNodesStep ctx s.lastOrderSignature decorated
    ({ highlighted := highlighted, lastOrderSignature := stepped.2 }, stepped.1)

/-- content.js `handleRuntimeMessage` (lines 258-295) on the semantic
messages: `semantic-results` applies the ranking (the cache write it also
performs is `storeResults`), `semantic-error` only logs a console warning —
the state is untouched and nothing is re-ranked — and `semantic-disabled`
clears the highlights. -/
def reactToMessage (ctx : Ctx) (msg : TabMessage) (nodeIds : List Str) (s : ContentState) :
    ContentState × Option (List Decorated) :=
  match msg with
  | .semanticResults data _ => applySemanticRanking ctx data nodeIds s
  | .semanticError _ => (s, none)
  | .semanticDisabled => (clearHighlights s, none)

/-! ## Score Fusion (modelled from the spec) -/

/-- Clamp a rational to `[0, 1]`. -/
def clamp01 (x : ℚ) : ℚ := min 1 (max 0 x)

/-- Modelled from the spec: Score Fusion runs in the repository's Flask
backend (`backend/app.py`), which is not under `src/` — content.js only
consumes the fused `score` and displays the weights (line 565).  Spec §4.2:
a fixed 60% text / 40% image blend when both signals are present,
`finalScore = textScore` when the image signal is absent, bounded to
`[0,1]`, with out-of-range inputs clamped defensively rather than
propagated. -/
def fuseScores (textScore : ℚ) (imageScore : Option ℚ) : ℚ :=
  clamp01 (match imageScore with
    | some img => 6/10 * textScore + 4/10 * img
    | none => textScore)

/-! ## The spec's full six-stage Filter Chain (stage 5 modelled from the spec) -/

/-- The stage-5 condition of spec §4.3: the item's text contains a
negative/off-topic marker and no query token appears in the description. -/
def negativeKeywordReject (tokens : List Str) (entry : Entry) : Bool :=
  NEGATIVE_KEYWORDS.any (fun kw => strContains (combinedText entry) kw) &&
    !(tokens.any (fun token => strContains (lowerStr entry.description) token))

/-- Modelled from the spec: the negative-keyword / off-topic stage (spec
§4.3 stage 5) is implemented in the repository's backend
(`backend/app.py`), which is not under `src/` — content.js declares
`NEGATIVE_KEYWORDS` (lines 28-38) but its `passesFilters` skips the check,
noting (line 704) that the backend handles music filtering.  This is the
spec's six-stage chain: min-score gate, image floor, brand disambiguation,
token presence with strong-image rescue, negative-keyword check, blacklist
check (with the blacklist keyed by the lowercased query, as
`getWrongBlacklist` builds it). -/
def passesFiltersSpec (ctx : Ctx) (query : Str) (entry : Entry) : Bool :=
  match entry.score with
  | none => false
  | some score =>
    if score < ctx.config.minScore then false
    else
      let th := computeImageThresholds ctx.config.imageMode
      let imageFloorReject : Bool :=
        match entry.image_score with
        | some i => if i < th.min then (if score < 35/100 then true else false) else false
        | none => false
      if imageFloorReject then false
      else
        let tokens := tokenize query
        let combined := combinedText entry
        let hasFruit := APPLE_FRUIT_KEYWORDS.any (fun kw => strContains combined kw)
        let hasBrand := APPLE_BRAND_KEYWORDS.any (fun kw => strContains combined kw)
        if ctx.config.enableBrandFilter && tokens.contains (str "apple")
            && hasBrand && !hasFruit then false
        else
          let tokenPresent := tokens.any (fun token => strContains combined token)
          let imageRescue : Bool :=
            match entry.image_score with
            | some i => if th.strong ≤ i then true else false
            | none => false
          if !(tokenPresent || imageRescue) then false
          else if negativeKeywordReject tokens entry then false
          else if isBlacklisted ctx (lowerStr query) entry.title then false
          else true

/-! ## Concrete fixtures -/

/-- The default content-script configuration (content.js lines 4-14). -/
def defaultConfig : Config :=
  { minScore := 25/100, maxItems := 30, enableReorder := true,
    enableBrandFilter := true, imageMode := str "balanced" }

/-- Context for the query "cats" with no tokens extracted (models a query
whose words are all shorter than three characters). -/
def ctxEmptyTokens : Ctx :=
  { config := defaultConfig, lastQueryTokens := [], wrongBlacklist := [] }

/-- An entry with a modest score and no image signal. -/
def entrySimple : Entry :=
  { id := str "v1", title := str "Hello", description := [],
    score := some (3/10), text_score := none, image_score := none }

/-- A `judgment = wrong` feedback record for title "Funny Cats!" under
query "cats". -/
def wrongFeedback : FeedbackEntry :=
  { query := str "cats", resultId := str "r0", title := str "Funny Cats!",
    feedback := Judgment.wrong, timestamp := 0 }

/-- Context for the query "cats" whose Blacklist Index was built from
`wrongFeedback` by `getWrongBlacklist`. -/
def ctxCats : Ctx :=
  { config := defaultConfig, lastQueryTokens := [str "cats"],
    wrongBlacklist := getWrongBlacklist [wrongFeedback] }

/-- A high-scoring entry whose title is exactly the blacklisted one. -/
def entryFunnyCats : Entry :=
  { id := str "v1", title := str "Funny Cats!", description := [],
    score := some (9/10), text_score := none, image_score := none }

/-- The same item as scraped from the results page. -/
def itemFunnyCats : PayloadItem :=
  { id := str "v1", text := str "Funny Cats!", title := str "Funny Cats!",
    description := [], thumbnail := [], metadata := [] }

/-- Balanced-mode context for the query "cats" with an empty blacklist. -/
def ctxBalanced : Ctx :=
  { config := defaultConfig, lastQueryTokens := [str "cats"], wrongBlacklist := [] }

/-- Entry scoring 0.5 with image score 0.7. -/
def entryWithImage : Entry :=
  { id := str "b", title := str "Cat video", description := [],
    score := some (5/10), text_score := some (5/10), image_score := some (7/10) }

/-- Entry scoring 0.5 with no image signal. -/
def entryNoImage : Entry :=
  { id := str "a", title := str "Cat clip", description := [],
    score := some (5/10), text_score := some (5/10), image_score := none }

/-- The decorated node of `entryWithImage`, originally listed second. -/
def itemWithImage : Decorated :=
  { id := str "b", entry := some entryWithImage, passes := true, score := 5/10, index := 1 }

/-- The decorated node of `entryNoImage`, originally listed first. -/
def itemNoImage : Decorated :=
  { id := str "a", entry := some entryNoImage, passes := true, score := 5/10, index := 0 }

/-- An off-topic music entry for the query "cats": the combined text
contains the marker "song" and the description contains no query token. -/
def entryMusic : Entry :=
  { id := str "m1", title := str "Cat Song", description := str "best music",
    score := some (9/10), text_score := none, image_score := none }

/-- A helpful feedback record used to exercise the trainer trigger. -/
def demoFeedback : FeedbackEntry :=
  { query := str "cats", resultId := str "r1", title := str "Funny Cats!",
    feedback := Judgment.helpful, timestamp := 0 }

/-- A one-item payload for the query "cats". -/
def payloadDemo : Payload := { query := str "cats", items := [itemFunnyCats] }

/-- A content-script state with one highlighted node. -/
def stateHighlighted : ContentState :=
  { highlighted := [str "v1"], lastOrderSignature := [] }

/-! ## Helper lemmas -/

theorem clamp01_nonneg (x : ℚ) : 0 ≤ clamp01 x :=
  le_min (by norm_num) (le_max_left 0 x)

theorem clamp01_le_one (x : ℚ) : clamp01 x ≤ 1 :=
  min_le_left 1 _

theorem clamp01_of_nonpos {x : ℚ} (h : x ≤ 0) : clamp01 x = 0 := by
  unfold clamp01
  rw [max_eq_left h, min_eq_right (by norm_num : (0:ℚ) ≤ 1)]

/-- The comparator characterized as a lexicographic order predicate. -/
theorem decoratedLE_eq_true_iff (ctx : Ctx) (a b : Decorated) :
    decoratedLE ctx a b = true ↔
      (tierFor ctx b < tierFor ctx a ∨
        (tierFor ctx a = tierFor ctx b ∧
          (b.score < a.score ∨ (a.score = b.score ∧ a.index ≤ b.index)))) := by
  unfold decoratedLE
  split_ifs with h1 h2 h3 h4
  · simp [h1]
  · simp [h1, h2, h3]
  · simp [h1, h2, h3, h4]
  · simp [h1, h2, h3, h4]
  · simp [h1, h2]

theorem decoratedLE_trans (ctx : Ctx) : ∀ a b c : Decorated,
    decoratedLE ctx a b = true → decoratedLE ctx b c = true →
      decoratedLE ctx a c = true := by
  intro a b c hab hbc
  rw [decoratedLE_eq_true_iff] at hab hbc ⊢
  rcases hab with h | ⟨hte, hs⟩
  · rcases hbc with h2 | ⟨hte2, _⟩
    · exact Or.inl (lt_trans h2 h)
    · exact Or.inl (hte2 ▸ h)
  · rcases hbc with h2 | ⟨hte2, hs2⟩
    · exact Or.inl (by rw [hte]; exact h2)
    · refine Or.inr ⟨hte.trans hte2, ?_⟩
      rcases hs with hsc | ⟨hse, hidx⟩
      · rcases hs2 with hsc2 | ⟨hse2, _⟩
        · exact Or.inl (lt_trans hsc2 hsc)
        · exact Or.inl (hse2 ▸ hsc)
      · rcases hs2 with hsc2 | ⟨hse2, hidx2⟩
        · exact Or.inl (by rw [hse]; exact hsc2)
        · exact Or.inr ⟨hse.trans hse2, le_trans hidx hidx2⟩

theorem decoratedLE_total (ctx : Ctx) : ∀ a b : Decorated,
    (decoratedLE ctx a b || decoratedLE ctx b a) = true := by
  intro a b
  rw [Bool.or_eq_true, decoratedLE_eq_true_iff, decoratedLE_eq_true_iff]
  rcases lt_trichotomy (tierFor ctx a) (tierFor ctx b) with h | h | h
  · exact Or.inr (Or.inl h)
  · rcases lt_trichotomy a.score b.score with hs | hs | hs
    · exact Or.inr (Or.inr ⟨h.symm, Or.inl hs⟩)
    · rcases le_total a.index b.index with hi | hi
      · exact Or.inl (Or.inr ⟨h, Or.inr ⟨hs, hi⟩⟩)
      · exact Or.inr (Or.inr ⟨h.symm, Or.inr ⟨hs.symm, hi⟩⟩)
    · exact Or.inl (Or.inr ⟨h, Or.inl hs⟩)
  · exact Or.inl (Or.inl h)

theorem reorderNodesStep_idem (ctx : Ctx) (s0 : Str) (items : List Decorated) :
    reorderNodesStep ctx (reorderNodesStep ctx s0 items).2 items =
      (none, (reorderNodesStep ctx s0 items).2) := by
  unfold reorderNodesStep
  by_cases h1 : ctx.config.enableReorder = false
  · simp [h1]
  · by_cases h2 : items.isEmpty
    · simp [h1, h2]
    · by_cases h3 : List.intercalate ['|'] ((sortItems ctx items).map (fun d => d.id)) = s0
      · simp [h1, h2, h3]
      · simp [h1, h2, h3]

theorem cacheGet_cacheSet (cache : List (Fingerprint × CacheEntry)) (h : Fingerprint)
    (e : CacheEntry) : cacheGet (cacheSet cache h e) h = some e := by
  unfold cacheGet cacheSet
  rw [List.find?_cons_of_pos _ (by simp)]
  rfl

theorem trainRequestSent_iff (log : List FeedbackEntry) :
    trainRequestSent log = true ↔ 10 ≤ (log.filter qualifyingEntry).length := by
  have hle := List.length_filter_le qualifyingEntry log
  unfold trainRequestSent
  split_ifs with h1 h2
  · simp only [Bool.false_eq_true, false_iff]
    omega
  · simp only [Bool.false_eq_true, false_iff]
    omega
  · simp only [true_iff]
    omega


/-! ## Claim theorems -/

theorem thresholds_balanced_eq :
    computeImageThresholds (str "balanced") = ⟨20/100, 45/100, 65/100⟩ := rfl

/-- C3: for every ranked item the fused final score lies in [0,1] whether or
not an image score is present, and an out-of-range (negative) score arriving
from the scorer is clamped into [0,1] (to 0) instead of being propagated. -/
theorem finalScore_in_unit_interval (t : ℚ) (img : Option ℚ) :
    0 ≤ fuseScores t img ∧ fuseScores t img ≤ 1 ∧
      (t < 0 → img = none → fuseScores t img = 0) := by
  unfold fuseScores
  refine ⟨clamp01_nonneg _, clamp01_le_one _, ?_⟩
  intro ht himg
  subst himg
  exact clamp01_of_nonpos ht.le

theorem finalScore_in_unit_interval_witness :
    (-1 : ℚ)/2 < 0 ∧ fuseScores (-1/2) none = 0 :=
  ⟨by norm_num, (finalScore_in_unit_interval (-1/2) none).2.2 (by norm_num) rfl⟩

/-- C2: the reorder operation emits a permutation of its input that is
ordered by the key (tier descending, then score descending, then original
index ascending), and on ties of tier and score items keep their original
relative index order. -/
theorem reorder_sorted_by_key_and_stable (ctx : Ctx) (items : List Decorated) :
    (sortItems ctx items).Perm items ∧
    (sortItems ctx items).Pairwise (fun a b => decoratedLE ctx a b = true) ∧
    (sortItems ctx items).Pairwise
      (fun a b => tierFor ctx a = tierFor ctx b → a.score = b.score → a.index ≤ b.index) := by
  unfold sortItems
  refine ⟨List.mergeSort_perm items _,
    List.sorted_mergeSort (decoratedLE_trans ctx) (decoratedLE_total ctx) items, ?_⟩
  refine (List.sorted_mergeSort (decoratedLE_trans ctx) (decoratedLE_total ctx) items).imp ?_
  intro a b hab hte hse
  rw [decoratedLE_eq_true_iff] at hab
  rcases hab with h | ⟨_, h⟩
  · exact absurd h (by rw [hte]; exact lt_irrefl _)
  · rcases h with h | ⟨_, hidx⟩
    · exact absurd h (by rw [hse]; exact lt_irrefl _)
    · exact hidx

/-- C8: running the Filter Chain + Tier Classifier + reorder a second time
on the same ranked set, nodes and context (hence the same Blacklist Index)
recomputes the same order signature and skips the reorder emission. -/
theorem ranking_pass_second_run_skipped (ctx : Ctx) (ranked : List Entry)
    (nodeIds : List Str) (s0 : Str) :
    rankingPass ctx ranked nodeIds (rankingPass ctx ranked nodeIds s0).2 =
      (none, (rankingPass ctx ranked nodeIds s0).2) :=
  reorderNodesStep_idem ctx s0 (decorate ctx ranked nodeIds)

/-- C10: if the query yields no tokens, every entry with a numeric score at
least `minScore` that clears the image floor passes the whole Filter Chain,
for every title, description and blacklist — the brand, token-presence,
negative-keyword and blacklist stages are all skipped. -/
theorem empty_query_tokens_pass_filters (ctx : Ctx) (entry : Entry) (s : ℚ)
    (htok : ctx.lastQueryTokens = [])
    (hscore : entry.score = some s)
    (hmin : ctx.config.minScore ≤ s)
    (hfloor : ∀ i, entry.image_score = some i →
      (computeImageThresholds ctx.config.imageMode).min ≤ i ∨ 35/100 ≤ s) :
    passesFilters ctx entry = true := by
  cases himg : entry.image_score with
  | none =>
    unfold passesFilters
    simp [hscore, himg, not_lt.mpr hmin, htok]
  | some i =>
    rcases hfloor i himg with h | h
    · unfold passesFilters
      simp [hscore, himg, not_lt.mpr hmin, not_lt.mpr h, htok]
    · unfold passesFilters
      simp [hscore, himg, not_lt.mpr hmin, not_lt.mpr h, htok]

theorem empty_query_tokens_pass_filters_witness :
    ctxEmptyTokens.lastQueryTokens = [] ∧
    entrySimple.score = some (3/10) ∧
    ctxEmptyTokens.config.minScore ≤ 3/10 ∧
    (∀ i, entrySimple.image_score = some i →
      (computeImageThresholds ctxEmptyTokens.config.imageMode).min ≤ i ∨ (35:ℚ)/100 ≤ 3/10) ∧
    passesFilters ctxEmptyTokens entrySimple = true := by
  refine ⟨rfl, rfl, by norm_num [ctxEmptyTokens, defaultConfig], ?_, ?_⟩
  · intro i h
    simp [entrySimple] at h
  · exact empty_query_tokens_pass_filters ctxEmptyTokens entrySimple (3/10) rfl rfl
      (by norm_num [ctxEmptyTokens, defaultConfig])
      (fun i h => by simp [entrySimple] at h)

/-- C4: in the spec's six-stage Filter Chain (stage 5 modelled from the
spec, since the negative-keyword check runs in the backend that is not
under src/), an item whose combined text contains a negative/off-topic
marker while no query token appears in its description is rejected. -/
theorem negative_keyword_stage_rejects (ctx : Ctx) (query : Str) (entry : Entry)
    (hneg : negativeKeywordReject (tokenize query) entry = true) :
    passesFiltersSpec ctx query entry = false := by
  unfold passesFiltersSpec
  cases hs : entry.score with
  | none => rfl
  | some score => split_ifs <;> simp_all

theorem negative_keyword_stage_rejects_witness :
    negativeKeywordReject (tokenize (str "cats")) entryMusic = true ∧
      passesFiltersSpec ctxBalanced (str "cats") entryMusic = false :=
  ⟨by decide, negative_keyword_stage_rejects ctxBalanced (str "cats") entryMusic (by decide)⟩

set_option maxRecDepth 4000 in
/-- C5: after an (accepted) append to the feedback log, a training request
goes out exactly when the stored log length is a positive multiple of 20
and at least 10 helpful/wrong entries exist — otherwise the run is a
silent no-op; concretely, the 19th append does not train and the 20th
does. -/
theorem feedback_training_trigger (log : List FeedbackEntry) (e : FeedbackEntry)
    (hq : e.query ≠ []) (hr : e.resultId ≠ []) :
    ((feedbackAppendStep log e).2 = true ↔
      (0 < (feedbackAppendStep log e).1.length ∧
        (feedbackAppendStep log e).1.length % 20 = 0 ∧
        10 ≤ ((feedbackAppendStep log e).1.filter qualifyingEntry).length)) ∧
    (feedbackAppendStep (List.replicate 19 demoFeedback) demoFeedback).2 = true ∧
    (feedbackAppendStep (List.replicate 18 demoFeedback) demoFeedback).2 = false := by
  refine ⟨?_, by decide, by decide⟩
  obtain ⟨a, as, hql⟩ := List.exists_cons_of_ne_nil hq
  obtain ⟨b, bs, hrl⟩ := List.exists_cons_of_ne_nil hr
  simp only [feedbackAppendStep, logSearchFeedback, hql, hrl, List.isEmpty_cons,
    Bool.or_self, Bool.false_eq_true, if_false, Bool.and_eq_true, trainerTriggered,
    decide_eq_true_eq, trainRequestSent_iff]
  tauto

theorem feedback_training_trigger_witness :
    demoFeedback.query ≠ [] ∧ demoFeedback.resultId ≠ [] ∧
      ((feedbackAppendStep [] demoFeedback).2 = true ↔
        (0 < (feedbackAppendStep [] demoFeedback).1.length ∧
          (feedbackAppendStep [] demoFeedback).1.length % 20 = 0 ∧
          10 ≤ ((feedbackAppendStep [] demoFeedback).1.filter qualifyingEntry).length)) :=
  ⟨by decide, by decide, (feedback_training_trigger [] demoFeedback (by decide) (by decide)).1⟩

/-- C6: a cache put followed by a lookup of the same fingerprint strictly
within the 300-second TTL serves exactly the ranked items that were put,
and a lookup at or after expiry is a miss on which `requestAnalysis` sends
the request to the scoring backend. -/
theorem cache_put_get_contract (cache : List (Fingerprint × CacheEntry)) (p : Payload)
    (data : List Entry) (t now : ℤ) (lastHash : Option Fingerprint)
    (hhash : some (fingerprint p) ≠ lastHash) :
    (now - t < CACHE_EXPIRY_MS →
      requestAnalysisStep true (some p) lastHash
          (storeResults cache (fingerprint p) data t) now = .useCache data) ∧
    (CACHE_EXPIRY_MS ≤ now - t →
      requestAnalysisStep true (some p) lastHash
          (storeResults cache (fingerprint p) data t) now = .sendBackend (fingerprint p)) := by
  have hget : cacheGet (storeResults cache (fingerprint p) data t) (fingerprint p) =
      some ⟨data, t⟩ := cacheGet_cacheSet cache (fingerprint p) ⟨data, t⟩
  constructor <;> intro h
  · simp [requestAnalysisStep, hhash, cacheLookupFresh, hget, h]
  · simp [requestAnalysisStep, hhash, cacheLookupFresh, hget, not_lt.mpr h]

theorem cache_put_get_contract_witness :
    some (fingerprint payloadDemo) ≠ (none : Option Fingerprint) ∧
    ((0 : ℤ) - 0 < CACHE_EXPIRY_MS →
      requestAnalysisStep true (some payloadDemo) none
          (storeResults [] (fingerprint payloadDemo) [entryFunnyCats] 0) 0 =
        .useCache [entryFunnyCats]) ∧
    (CACHE_EXPIRY_MS ≤ (600000 : ℤ) - 0 →
      requestAnalysisStep true (some payloadDemo) none
          (storeResults [] (fingerprint payloadDemo) [entryFunnyCats] 0) 600000 =
        .sendBackend (fingerprint payloadDemo)) :=
  ⟨by decide,
   (cache_put_get_contract [] payloadDemo [entryFunnyCats] 0 0 none (by decide)).1,
   (cache_put_get_contract [] payloadDemo [entryFunnyCats] 0 600000 none (by decide)).2⟩

/-- C7 (amended): for every passing item carrying an image score, an image
score at or above `thresholds.top` forces tier 7 and one in
`[thresholds.strong, thresholds.top)` forces tier 6, overriding the 2-5
score bucketing; in balanced mode an item with final score 0.5 and image
score 0.7 receives tier 7 (0.7 is at or above the balanced top threshold
0.65), while an equal-scoring passing item without image signal gets tier
4, and the sort key ranks the image item strictly above it. -/
theorem image_tier_override (ctx : Ctx) (item : Decorated) (e : Entry) (i : ℚ)
    (he : item.entry = some e) (hp : item.passes = true)
    (hi : e.image_score = some i) :
    ((computeImageThresholds ctx.config.imageMode).top ≤ i → tierFor ctx item = 7) ∧
    (i < (computeImageThresholds ctx.config.imageMode).top →
      (computeImageThresholds ctx.config.imageMode).strong ≤ i → tierFor ctx item = 6) ∧
    tierFor ctxBalanced itemWithImage = 7 ∧
    tierFor ctxBalanced itemNoImage = 4 ∧
    decoratedLE ctxBalanced itemWithImage itemNoImage = true ∧
    decoratedLE ctxBalanced itemNoImage itemWithImage = false := by
  refine ⟨?_, ?_, ?_, ?_, ?_, ?_⟩
  · intro htop
    unfold tierFor
    simp [he, hp, hi, htop]
  · intro htop hstrong
    unfold tierFor
    simp [he, hp, hi, not_le.mpr htop, hstrong]
  · norm_num [tierFor, ctxBalanced, itemWithImage, entryWithImage, defaultConfig,
      thresholds_balanced_eq, bucketTier]
  · norm_num [tierFor, ctxBalanced, itemNoImage, entryNoImage, defaultConfig,
      thresholds_balanced_eq, bucketTier]
  · norm_num [decoratedLE, tierFor, ctxBalanced, itemWithImage, itemNoImage, entryWithImage,
      entryNoImage, defaultConfig, thresholds_balanced_eq, bucketTier]
  · norm_num [decoratedLE, tierFor, ctxBalanced, itemWithImage, itemNoImage, entryWithImage,
      entryNoImage, defaultConfig, thresholds_balanced_eq, bucketTier]

theorem image_tier_override_witness :
    itemWithImage.entry = some entryWithImage ∧
    itemWithImage.passes = true ∧
    entryWithImage.image_score = some (7/10) ∧
    tierFor ctxBalanced itemWithImage = 7 :=
  ⟨rfl, rfl, rfl,
   (image_tier_override ctxBalanced itemWithImage entryWithImage (7/10) rfl rfl rfl).1
     (by norm_num [ctxBalanced, defaultConfig, thresholds_balanced_eq])⟩

/-- C7 counterexample: the claim's balanced-mode scenario item (final score
0.5, image score 0.7) does not receive tier 6 — it receives tier 7,
because 0.7 is at or above the balanced `top` threshold 0.65. -/
theorem balanced_image_scenario_tier_not_six :
    tierFor ctxBalanced itemWithImage = 7 ∧ tierFor ctxBalanced itemWithImage ≠ 6 := by
  constructor <;>
    norm_num [tierFor, ctxBalanced, itemWithImage, entryWithImage, defaultConfig,
      thresholds_balanced_eq, bucketTier]

/-- C1 (code bug): evaluation at the failing input.  The Blacklist Index
built by `getWrongBlacklist` from a `judgment = wrong` record for title
"Funny Cats!" under query "cats" does blacklist the normalized title under
the key "cats" (second conjunct, arguments in the declared
`(queryKey, title)` order), and `collectEntries` therefore drops the item
from a fresh payload (third conjunct) — yet `passesFilters` returns `true`
for the very same blacklisted entry (fourth conjunct), because content.js
line 706 calls `isBlacklisted(entry.title, lastQueryTokens.join(" "))`
with the arguments swapped, so the chain's blacklist stage never fires. -/
theorem blacklisted_title_passes_filter_chain :
    getWrongBlacklist [wrongFeedback] = [(str "cats", [str "funny cats"])] ∧
    isBlacklisted ctxCats (str "cats") entryFunnyCats.title = true ∧
    collectEntries ctxCats (str "cats") [itemFunnyCats] = none ∧
    passesFilters ctxCats entryFunnyCats = true := by
  refine ⟨by decide, by decide, by decide, ?_⟩
  norm_num [passesFilters, ctxCats, entryFunnyCats, defaultConfig, computeImageThresholds,
    normalizeImageMode, combinedText, str]
  decide

/-- C9 (amended): when the scorer backend fails — a non-OK HTTP status or a
thrown network error — the background worker surfaces exactly one
`semantic-error` message to the caller, the content script applies no
ranking for that request, and nothing retries the request; however the
previous highlight state is left unchanged, not cleared (clearing happens
only on `semantic-disabled` or an empty result set). -/
theorem scorer_failure_surfaced_highlights_kept (p : Payload) (hash : Fingerprint)
    (status : ℕ) (body msg : Str) (ctx : Ctx) (nodeIds : List Str) (s : ContentState)
    (hq : p.query ≠ []) (hi : p.items ≠ []) :
    handleSemanticRequest true (some p) hash (.httpError status body) =
      some (.semanticError (backendErrorText status body)) ∧
    handleSemanticRequest true (some p) hash (.networkError msg) =
      some (.semanticError msg) ∧
    (∀ e, reactToMessage ctx (.semanticError e) nodeIds s = (s, none)) := by
  obtain ⟨a, as, hql⟩ := List.exists_cons_of_ne_nil hq
  obtain ⟨b, bs, hil⟩ := List.exists_cons_of_ne_nil hi
  refine ⟨?_, ?_, fun e => rfl⟩ <;>
    simp [handleSemanticRequest, hql, hil]

theorem scorer_failure_surfaced_highlights_kept_witness :
    payloadDemo.query ≠ [] ∧ payloadDemo.items ≠ [] ∧
    handleSemanticRequest true (some payloadDemo) (fingerprint payloadDemo)
        (.httpError 500 (str "boom")) =
      some (.semanticError (backendErrorText 500 (str "boom"))) ∧
    (∀ e, reactToMessage ctxCats (.semanticError e) [] stateHighlighted =
      (stateHighlighted, none)) :=
  ⟨by decide, by decide,
   (scorer_failure_surfaced_highlights_kept payloadDemo (fingerprint payloadDemo) 500
     (str "boom") (str "net down") ctxCats [] stateHighlighted (by decide) (by decide)).1,
   (scorer_failure_surfaced_highlights_kept payloadDemo (fingerprint payloadDemo) 500
     (str "boom") (str "net down") ctxCats [] stateHighlighted (by decide) (by decide)).2.2⟩

/-- C9 counterexample: a `semantic-error` message leaves a previously
highlighted node highlighted — the highlight state is not cleared as the
claim asserts. -/
theorem semantic_error_keeps_highlights :
    (reactToMessage ctxCats (.semanticError (str "Backend error: 500 boom")) []
        stateHighlighted).1.highlighted = [str "v1"] ∧
    [str "v1"] ≠ ([] : List Str) :=
  ⟨rfl, by decide⟩

end AISearch
